import Mathlib

/-!
Verification of the sheet-to-database synchronization pipeline of the
budgeting-app repository (backend/sync/data_sync.py, backend/sync/Expenses.py,
backend/db/models.py, backend/db/database.py, backend/config.py).

The Python code is shallowly embedded: pure helpers become Lean functions,
exception-raising code returns Except String, the external spreadsheet source
is an explicit environment (sheet list plus a fetch function from range
strings to rectangular cell blocks), and the persistence sink is an explicit
store whose insert rejects duplicate primary keys, as the id primary-key
columns and save_data (add_all + commit, raising IntegrityError) do.
Python floats on the parsing paths are modelled as exact rationals.
-/

deriving instance DecidableEq for Except

namespace BudgetSync

/-- Calendar date as produced by datetime.date; comparisons in the source are
the standard (year, month, day) lexicographic order of Python dates. -/
structure Date where
  year : Nat
  month : Nat
  day : Nat
deriving DecidableEq

/-- Lexicographic less-or-equal on dates, matching Python date ordering. -/
def dateLE (a b : Date) : Bool :=
  if a.year ≠ b.year then decide (a.year < b.year)
  else if a.month ≠ b.month then decide (a.month < b.month)
  else decide (a.day ≤ b.day)

/-- Gregorian leap-year test used by datetime validation. -/
def isLeap (y : Nat) : Bool :=
  y % 4 = 0 && (y % 100 ≠ 0 || y % 400 = 0)

/-- Number of days of a month, as validated by datetime. -/
def daysInMonth (y m : Nat) : Nat :=
  if m = 2 then (if isLeap y then 29 else 28)
  else if m = 4 || m = 6 || m = 9 || m = 11 then 30
  else 31

/-- Python str.split with a one-character separator, over character lists (the
source only ever splits on the one-character separators slash, dash, space,
bang and dot). Structural, so that the kernel can evaluate it, unlike the
position-based core String.splitOn. -/
def splitOnChar (c : Char) : List Char → List (List Char)
  | [] => [[]]
  | a :: rest =>
    match splitOnChar c rest with
    | t :: ts => if a = c then [] :: t :: ts else (a :: t) :: ts
    | [] => [[a]]

/-- Python str.replace(pattern, "") for a one-character pattern: remove every
occurrence of the character. -/
def removeChar (c : Char) (l : List Char) : List Char :=
  l.filter (fun a => a ≠ c)

/-- Check that the first character list occurs at the head of the second. -/
def leadsWith : List Char → List Char → Bool
  | [], _ => true
  | _ :: _, [] => false
  | a :: as, b :: bs => a = b && leadsWith as bs

/-- Check that the first character list occurs somewhere inside the second. -/
def scanContains (sub : List Char) : List Char → Bool
  | [] => leadsWith sub []
  | c :: cs => leadsWith sub (c :: cs) || scanContains sub cs

/-- Python str.replace for a multi-character nonempty pattern: left-to-right,
non-overlapping. Fuelled by the length of the text so the recursion is
structural; each step consumes at least one character, so fuel equal to the
length is always enough. -/
def replaceFuel (pat rep : List Char) : Nat → List Char → List Char
  | 0, s => s
  | _ + 1, [] => []
  | fuel + 1, a :: rest =>
    if pat ≠ [] && leadsWith pat (a :: rest) then
      rep ++ replaceFuel pat rep fuel ((a :: rest).drop pat.length)
    else
      a :: replaceFuel pat rep fuel rest

/-- Python str.replace entry point for a multi-character pattern. -/
def replaceStr (s pat rep : String) : String :=
  ⟨replaceFuel pat.data rep.data s.data.length s.data⟩

/-- Python str.isdigit-style check for the digit groups matched by strptime. -/
def allDigits (s : List Char) : Bool :=
  s.length > 0 && s.all Char.isDigit

/-- Decimal value of a digit string. -/
def digitsToNat (s : List Char) : Nat :=
  s.foldl (fun n c => n * 10 + (c.toNat - 48)) 0

/-- datetime.strptime(s, m/d/Y).date(): month and day are 1 or 2 digits within
range, the year exactly 4 digits, separators are literal slashes, the whole
string must be consumed, and the day must exist in the month. -/
def strptimeMDYYYY (s : String) : Option Date :=
  match splitOnChar '/' s.data with
  | [m, d, y] =>
    if allDigits m && m.length ≤ 2 && allDigits d && d.length ≤ 2
        && allDigits y && y.length = 4 then
      let mm := digitsToNat m
      let dd := digitsToNat d
      let yy := digitsToNat y
      if 1 ≤ mm && mm ≤ 12 && 1 ≤ dd && dd ≤ daysInMonth yy mm && 1 ≤ yy then
        some ⟨yy, mm, dd⟩
      else none
    else none
  | _ => none

/-- datetime.strptime(s, m/d/y).date(): as above but the year is exactly two
digits, mapped to 2000+y below 69 and 1900+y otherwise. -/
def strptimeMDYY (s : String) : Option Date :=
  match splitOnChar '/' s.data with
  | [m, d, y] =>
    if allDigits m && m.length ≤ 2 && allDigits d && d.length ≤ 2
        && allDigits y && y.length = 2 then
      let mm := digitsToNat m
      let dd := digitsToNat d
      let yy := if digitsToNat y < 69 then 2000 + digitsToNat y else 1900 + digitsToNat y
      if 1 ≤ mm && mm ≤ 12 && 1 ≤ dd && dd ≤ daysInMonth yy mm then
        some ⟨yy, mm, dd⟩
      else none
    else none
  | _ => none

/-- parse_date (data_sync.py): try the four-digit-year format first and fall
back to the two-digit-year format; none models the propagated ValueError when
neither format matches. -/
def parse_date (date_string : String) : Option Date :=
  match strptimeMDYYYY date_string with
  | some d => some d
  | none => strptimeMDYY date_string

/-- Python float(...) on the cleaned amount/percentage strings, modelled as
exact rational parsing of an optionally signed decimal literal. The value
ip.fp is the normalized fraction (ip concatenated with fp) over ten to the
number of fractional digits, built directly with mkRat so the kernel can
evaluate it. -/
def parseFloat (s : List Char) : Option ℚ :=
  let core : List Char → Option ℚ := fun r =>
    match splitOnChar '.' r with
    | [ip, fp] =>
      if (ip.length > 0 || fp.length > 0) && ip.all Char.isDigit && fp.all Char.isDigit then
        some (mkRat ((digitsToNat ip * 10 ^ fp.length + digitsToNat fp : Nat) : Int)
          (10 ^ fp.length))
      else none
    | [ip] =>
      if allDigits ip then some (mkRat ((digitsToNat ip : Nat) : Int) 1) else none
    | _ => none
  match s with
  | '-' :: rest => (core rest).map (fun q => -q)
  | '+' :: rest => core rest
  | _ => core s

/-- parse_amount (data_sync.py): strip dollar signs and thousands separators,
then parse as a signed decimal. -/
def parse_amount (amount_str : String) : Option ℚ :=
  parseFloat (removeChar ',' (removeChar '$' amount_str.data))

/-- parse_percentage (data_sync.py): strip percent signs and divide by 100,
the division realized as the normalized fraction num over den times 100 so the
kernel can evaluate it. -/
def parse_percentage (percent_str : String) : Option ℚ :=
  (parseFloat (removeChar '%' percent_str.data)).map (fun q => mkRat q.num (q.den * 100))

/-- extract_date_from_sheet_name (data_sync.py): drop the literal text
"Spending " from the sheet label and parse day 1 of the remaining month/year. -/
def extract_date_from_sheet_name (sheet_name : String) : Option Date :=
  parse_date ("1/" ++ replaceStr sheet_name "Spending " "")

/-- is_date_string_date_range (data_sync.py): a date cell denotes a trip range
iff it contains a dash. -/
def is_date_string_date_range (date_str : String) : Bool :=
  date_str.data.any (fun c => c = '-')

/-- Python substring containment (sub in s). All patterns used by the source
are nonempty. -/
def strContains (s sub : String) : Bool :=
  scanContains sub.data s.data

/-- Python s.split(" ")[0], used to take the first whitespace-delimited token
of a description or sheet name. -/
def firstToken (s : String) : String :=
  ⟨(splitOnChar ' ' s.data).headD []⟩

/-- Python date.isoformat zero padding for the f-string interpolation of dates
inside generate_trip_id. -/
def pad2 (n : Nat) : String :=
  if n < 10 then "0" ++ toString n else toString n

/-- Python date.isoformat zero padding of the year to four digits. -/
def pad4 (n : Nat) : String :=
  if n < 10 then "000" ++ toString n
  else if n < 100 then "00" ++ toString n
  else if n < 1000 then "0" ++ toString n
  else toString n

/-- Python str(d) for a datetime.date: the ISO YYYY-MM-DD form. -/
def dateStr (d : Date) : String :=
  pad4 d.year ++ "-" ++ pad2 d.month ++ "-" ++ pad2 d.day

/-- Modelled from the source with one abstraction: hashlib.md5 of the
combined natural-key string, kept as hexdigest. The spec states that any
fixed deterministic digest function is acceptable, and no claim depends on
the digest bytes themselves, so the digest is modelled as the identity
embedding of the combined string (same input, same id; the combined strings
of models.py are preserved exactly). -/
def md5hex (s : String) : String := s

/-- generate_purchase_id (models.py): digest of sheetname_rowindex. -/
def generate_purchase_id (sheet_name : String) (row_index : Nat) : String :=
  md5hex (sheet_name ++ "_" ++ toString row_index)

/-- generate_trip_id (models.py): digest of name_startdate_enddate. -/
def generate_trip_id (name : String) (start_date end_date : Date) : String :=
  md5hex (name ++ "_" ++ dateStr start_date ++ "_" ++ dateStr end_date)

/-- generate_total_id (models.py): digest of sheetname_totaltype with the trip
name appended when it is present and truthy (nonempty). -/
def generate_total_id (sheet_name : String) (total_type : String)
    (trip_name : Option String) : String :=
  match trip_name with
  | some t => if t ≠ "" then md5hex (sheet_name ++ "_" ++ total_type ++ "_" ++ t)
              else md5hex (sheet_name ++ "_" ++ total_type)
  | none => md5hex (sheet_name ++ "_" ++ total_type)

/-- The date field of an in-flight purchase row: either a parsed concrete date
object or the raw date-range string kept verbatim, exactly the two cases of
the conditional in process_spending_data. -/
inductive DateField where
  | d (dt : Date)
  | raw (s : String)
deriving DecidableEq

/-- Python isinstance(x, date) on the heterogeneous date field. -/
def DateField.isConcrete : DateField → Bool
  | .d _ => true
  | .raw _ => false

/-- A purchase dict as assembled by process_spending_data and
process_trip_spending_data; regular rows carry no trip_id key and the
Purchases ORM defaults it to null, embedded as none. -/
structure PurchaseRow where
  id : String
  date : DateField
  amount : ℚ
  category : String
  description : String
  comment : Option String
  trip_id : Option String
deriving DecidableEq

/-- A trip dict as assembled by process_trip_data. -/
structure TripRow where
  id : String
  name : String
  start_date : Date
  end_date : Date
  comment : Option String
deriving DecidableEq

/-- A totals dict as assembled by process_totals_data and
process_trip_totals_data; regular totals carry no trip key and the Totals ORM
defaults it to null, embedded as none. -/
structure TotalRow where
  id : String
  date : Date
  type : String
  amount : ℚ
  progress : ℚ
  budgeted : ℚ
  trip : Option String
deriving DecidableEq

/-- DEFAULT_NA (config.py). -/
def DEFAULT_NA : ℚ := 0

/-- SPENDING_RANGE_KEY (config.py). -/
def SPENDING_RANGE_KEY : String := "A1:E"

/-- TOTALS_RANGE_KEY (config.py). -/
def TOTALS_RANGE_KEY : String := "F2:I9"

/-- TRIP_SPENDING_RANGE_KEY (config.py). -/
def TRIP_SPENDING_RANGE_KEY : String := "A1:E"

/-- TRIP_TOTALS_RANGE_KEY (config.py). -/
def TRIP_TOTALS_RANGE_KEY : String := "F2:G8"

/-- The external spreadsheet source for one year: the sheet names reported by
get_sheet_names and the rectangular block the Sheets API returns for each A1
range (an empty list models a fetch that yields no values). -/
structure Expenses where
  sheets : List String
  fetch : String → List (List String)

/-- Expenses.get_sheet_name_from_range: split at the bang and keep the sheet. -/
def get_sheet_name_from_range (range : String) : String :=
  ⟨(splitOnChar '!' range.data).headD []⟩

/-- Expenses.get_data: when the fetch yields no values, log and return None
(absence, not an exception); otherwise a one-entry dict from the sheet name to
the values, embedded as a pair. -/
def Expenses.get_data (e : Expenses) (range : String) :
    Option (String × List (List String)) :=
  let values := e.fetch range
  if values.isEmpty then none
  else some (get_sheet_name_from_range range, values)

/-- The error raised by calling .values() or .items() on the None that
get_data returns for an empty range. -/
def ATTR_ERROR : String := "AttributeError: NoneType object has no attribute values"

/-- Python row indexing d[i], raising IndexError past the end. -/
def item : List String → Nat → Except String String
  | l, i => match l.get? i with
    | some v => Except.ok v
    | none => Except.error "IndexError: list index out of range"

/-- Lift an optional parse result into the exception monad, modelling the
propagated ValueError. -/
def need {α : Type} (o : Option α) (msg : String) : Except String α :=
  match o with
  | some v => Except.ok v
  | none => Except.error msg

/-- Sequential loop body collection with exception propagation, as Python for
loops that append to an accumulator. -/
def mapME {α β : Type} (f : α → Except String β) : List α → Except String (List β)
  | [] => Except.ok []
  | a :: l =>
    match f a with
    | Except.error msg => Except.error msg
    | Except.ok b =>
      match mapME f l with
      | Except.error msg => Except.error msg
      | Except.ok bs => Except.ok (b :: bs)

/-- Loop over ranges concatenating the rows produced for each range, with exception
propagation. -/
def concatME {α : Type} (f : String → Except String (List α)) :
    List String → Except String (List α)
  | [] => Except.ok []
  | r :: rest =>
    match f r with
    | Except.error msg => Except.error msg
    | Except.ok xs =>
      match concatME f rest with
      | Except.error msg => Except.error msg
      | Except.ok ys => Except.ok (xs ++ ys)

/-- Python enumerate over the data rows of a fetched block after discarding
the header row. -/
def dataRows (values : List (List String)) : List (Nat × List String) :=
  (values.drop 1).enum

/-- One iteration of the row loop of process_spending_data: keep the raw cell
when it is a date range, otherwise parse it; parse the amount; a fifth column
is the optional comment. -/
def spending_row (sheet_name : String) (ri : Nat) (d : List String) :
    Except String PurchaseRow :=
  match item d 0 with
  | Except.error msg => Except.error msg
  | Except.ok c0 =>
    match (if is_date_string_date_range c0 then some (DateField.raw c0)
           else (parse_date c0).map DateField.d) with
    | none => Except.error "ValueError: time data does not match format"
    | some df =>
      match item d 1 with
      | Except.error msg => Except.error msg
      | Except.ok a1 =>
        match parse_amount a1 with
        | none => Except.error "ValueError: could not convert string to float"
        | some amt =>
          match item d 2 with
          | Except.error msg => Except.error msg
          | Except.ok cat =>
            match item d 3 with
            | Except.error msg => Except.error msg
            | Except.ok desc =>
              Except.ok { id := generate_purchase_id sheet_name ri
                          date := df
                          amount := amt
                          category := cat
                          description := desc
                          comment := if d.length = 5 then some (d.getD 4 "") else none
                          trip_id := none }

/-- The per-range body of process_spending_data: sheet name from the range,
data rows from get_data (crashing on the None of an empty fetch), then the
row loop. -/
def process_spending_range (e : Expenses) (range : String) :
    Except String (List PurchaseRow) :=
  let sheet_name := get_sheet_name_from_range range
  match e.get_data range with
  | none => Except.error ATTR_ERROR
  | some (_, values) => mapME (fun p => spending_row sheet_name p.1 p.2) (dataRows values)

/-- process_spending_data (data_sync.py). -/
def process_spending_data (e : Expenses) (spending_ranges : List String) :
    Except String (List PurchaseRow) :=
  concatME (process_spending_range e) spending_ranges

/-- The fields of a spending row that feed trip inference, present exactly for
the rows whose date field is not a date instance. -/
def trip_fields (r : PurchaseRow) : Option (String × String × Option String) :=
  match r.date with
  | DateField.raw ds => some (ds, r.description, r.comment)
  | DateField.d _ => none

/-- Python set.add on the comment collection of a trip group, guarded by the
truthiness test of the source (None and the empty string are skipped). The
Python set is kept in first-insertion order here to stay executable; its real
iteration order is interpreter-defined and is not relied on by any theorem. -/
def commentAdd (cs : List String) (c : Option String) : List String :=
  match c with
  | none => cs
  | some s => if s = "" then cs else if cs.contains s then cs else cs ++ [s]

/-- One defaultdict update of aggregated_trips: find the entry of the natural
key, creating it at the end on first access, and add the comment. -/
def aggAdd : List ((String × Date × Date) × List String) → (String × Date × Date) →
    Option String → List ((String × Date × Date) × List String)
  | [], k, c => [(k, commentAdd [] c)]
  | (k0, cs) :: rest, k, c =>
    if k0 = k then (k0, commentAdd cs c) :: rest
    else (k0, cs) :: aggAdd rest k c

/-- The aggregation loop of process_trip_data: take the trip name from the
first token of the description, split the date range on the dash and parse
both sides (unpacking and parse failures propagate), and group by the
(name, start, end) natural key in first-encounter order as a Python dict. -/
def aggregate_trips : List (String × String × Option String) →
    List ((String × Date × Date) × List String) →
    Except String (List ((String × Date × Date) × List String))
  | [], acc => Except.ok acc
  | (ds, desc, cmt) :: rest, acc =>
    let name := firstToken desc
    match (splitOnChar '-' ds.data).map (fun l => String.mk l) with
    | [s1, s2] =>
      match parse_date s1, parse_date s2 with
      | some sd, some ed => aggregate_trips rest (aggAdd acc (name, sd, ed) cmt)
      | _, _ => Except.error "ValueError: time data does not match format"
    | _ => Except.error "ValueError: cannot unpack date range"

/-- Final trip record of one aggregated group: derived id, the natural key,
and the joined comments (None when the comment set stayed empty). -/
def finalize_trip (g : (String × Date × Date) × List String) : TripRow :=
  { id := generate_trip_id g.1.1 g.1.2.1 g.1.2.2
    name := g.1.1
    start_date := g.1.2.1
    end_date := g.1.2.2
    comment := if g.2.isEmpty then none else some (String.intercalate " | " g.2) }

/-- process_trip_data (data_sync.py). -/
def process_trip_data (spending_rows : List PurchaseRow) :
    Except String (List TripRow) :=
  match aggregate_trips (spending_rows.filterMap trip_fields) [] with
  | Except.error msg => Except.error msg
  | Except.ok agg => Except.ok (agg.map finalize_trip)

/-- The trip_lookup dict of process_trip_spending_data: name to the list of
trips of that name, appended in processed order via setdefault. -/
def lookupAdd : List (String × List TripRow) → TripRow → List (String × List TripRow)
  | [], t => [(t.name, [t])]
  | (n, ts) :: rest, t =>
    if n = t.name then (n, ts ++ [t]) :: rest
    else (n, ts) :: lookupAdd rest t

/-- Build the whole trip_lookup dict. -/
def build_trip_lookup (trips : List TripRow) : List (String × List TripRow) :=
  trips.foldl lookupAdd []

/-- Python dict lookup on the trip_lookup association list. -/
def lookupGet : List (String × List TripRow) → String → Option (List TripRow)
  | [], _ => none
  | (n, ts) :: rest, name => if n = name then some ts else lookupGet rest name

/-- The inner matching loop of process_trip_spending_data: walk the candidate
trips in order and take the id of the first whose window contains the date. -/
def firstContaining (pd : Date) : List TripRow → Option String
  | [] => none
  | t :: ts =>
    if dateLE t.start_date pd && dateLE pd t.end_date then some t.id
    else firstContaining pd ts

/-- One iteration of the purchase loop of process_trip_spending_data: the
candidate trip name is the first token of the sheet name (hoisted out of the
loop in the source, recomputed here with the same value), the date always goes
through parse_date, and the trip id stays None when the name misses the lookup
or no window contains the date. -/
def trip_purchase_row (sheet_name : String) (lookup : List (String × List TripRow))
    (ri : Nat) (p : List String) : Except String PurchaseRow :=
  let trip_name := firstToken sheet_name
  match item p 0 with
  | Except.error msg => Except.error msg
  | Except.ok c0 =>
    match parse_date c0 with
    | none => Except.error "ValueError: time data does not match format"
    | some pd =>
      let tid := match lookupGet lookup trip_name with
                 | none => none
                 | some ts => firstContaining pd ts
      match item p 1 with
      | Except.error msg => Except.error msg
      | Except.ok a1 =>
        match parse_amount a1 with
        | none => Except.error "ValueError: could not convert string to float"
        | some amt =>
          match item p 2 with
          | Except.error msg => Except.error msg
          | Except.ok cat =>
            match item p 3 with
            | Except.error msg => Except.error msg
            | Except.ok desc =>
              Except.ok { id := generate_purchase_id sheet_name ri
                          date := DateField.d pd
                          amount := amt
                          category := cat
                          description := desc
                          comment := if p.length = 5 then some (p.getD 4 "") else none
                          trip_id := tid }

/-- The per-range body of process_trip_spending_data, iterating the one-entry
dict of get_data (crashing on the None of an empty fetch). -/
def process_trip_spending_range (e : Expenses) (lookup : List (String × List TripRow))
    (range : String) : Except String (List PurchaseRow) :=
  match e.get_data range with
  | none => Except.error ATTR_ERROR
  | some (sheet_name, values) =>
    mapME (fun p => trip_purchase_row sheet_name lookup p.1 p.2) (dataRows values)

/-- process_trip_spending_data (data_sync.py). -/
def process_trip_spending_data (e : Expenses) (trip_spending_ranges : List String)
    (processed_trips : List TripRow) : Except String (List PurchaseRow) :=
  concatME (process_trip_spending_range e (build_trip_lookup processed_trips))
    trip_spending_ranges

/-- One iteration of the totals loop of process_totals_data: the month anchor
comes from the sheet name, amount and budgeted are currency cells, progress a
percentage cell. -/
def totals_row (sheet_name : String) (d : List String) : Except String TotalRow :=
  match item d 0 with
  | Except.error msg => Except.error msg
  | Except.ok t0 =>
    match extract_date_from_sheet_name sheet_name with
    | none => Except.error "ValueError: time data does not match format"
    | some dt =>
      match item d 1 with
      | Except.error msg => Except.error msg
      | Except.ok a1 =>
        match parse_amount a1 with
        | none => Except.error "ValueError: could not convert string to float"
        | some amt =>
          match item d 2 with
          | Except.error msg => Except.error msg
          | Except.ok a2 =>
            match parse_percentage a2 with
            | none => Except.error "ValueError: could not convert string to float"
            | some prog =>
              match item d 3 with
              | Except.error msg => Except.error msg
              | Except.ok a3 =>
                match parse_amount a3 with
                | none => Except.error "ValueError: could not convert string to float"
                | some bud =>
                  Except.ok { id := generate_total_id sheet_name t0 none
                              date := dt
                              type := t0
                              amount := amt
                              progress := prog
                              budgeted := bud
                              trip := none }

/-- The per-range body of process_totals_data (crashing on the None of an
empty fetch). -/
def process_totals_range (e : Expenses) (range : String) :
    Except String (List TotalRow) :=
  let sheet_name := get_sheet_name_from_range range
  match e.get_data range with
  | none => Except.error ATTR_ERROR
  | some (_, values) => mapME (totals_row sheet_name) (values.drop 1)

/-- process_totals_data (data_sync.py). -/
def process_totals_data (e : Expenses) (totals_ranges : List String) :
    Except String (List TotalRow) :=
  concatME (process_totals_range e) totals_ranges

/-- The trip_lookup dict comprehension of process_trip_totals_data: one trip
per name, a later trip of the same name overwriting an earlier one. -/
def lookupLastByName : List TripRow → String → Option TripRow
  | [], _ => none
  | t :: rest, name =>
    match lookupLastByName rest name with
    | some r => some r
    | none => if t.name = name then some t else none

/-- One iteration of the totals loop of process_trip_totals_data: the date is
the start date of the owning trip, progress and budgeted are the DEFAULT_NA
sentinel, and the trip column carries the trip id. -/
def trip_totals_row (sheet_name trip_name : String) (trip : TripRow)
    (d : List String) : Except String TotalRow :=
  match item d 0 with
  | Except.error msg => Except.error msg
  | Except.ok t0 =>
    match item d 1 with
    | Except.error msg => Except.error msg
    | Except.ok a1 =>
      match parse_amount a1 with
      | none => Except.error "ValueError: could not convert string to float"
      | some amt =>
        Except.ok { id := generate_total_id sheet_name t0 (some trip_name)
                    date := trip.start_date
                    type := t0
                    amount := amt
                    progress := DEFAULT_NA
                    budgeted := DEFAULT_NA
                    trip := some trip.id }

/-- The per-range body of process_trip_totals_data: when the first token of
the sheet name misses the lookup the whole range is skipped with a warning;
otherwise the rows are produced (get_data None would crash, but it is only
reached when a trip matched). -/
def process_trip_totals_range (e : Expenses) (trips : List TripRow)
    (range : String) : Except String (List TotalRow) :=
  let sheet_name := get_sheet_name_from_range range
  let trip_name := firstToken sheet_name
  match lookupLastByName trips trip_name with
  | none => Except.ok []
  | some trip =>
    match e.get_data range with
    | none => Except.error ATTR_ERROR
    | some (_, values) => mapME (trip_totals_row sheet_name trip_name trip) (values.drop 1)

/-- process_trip_totals_data (data_sync.py). -/
def process_trip_totals_data (e : Expenses) (trip_totals_ranges : List String)
    (processed_trips : List TripRow) : Except String (List TotalRow) :=
  concatME (process_trip_totals_range e processed_trips) trip_totals_ranges

/-- The four range groups returned by Expenses.construct_ranges. -/
structure Ranges where
  spending_ranges : List String
  totals_ranges : List String
  trip_spending_ranges : List String
  trip_totals_ranges : List String
deriving DecidableEq

/-- The in_range closure of Expenses.construct_ranges: a sheet is selected iff
its name contains the decimal literal of some month of the window. -/
def month_in_range (start_month end_month : Nat) (sheet : String) : Bool :=
  (List.range' start_month (end_month + 1 - start_month)).any
    (fun m => strContains sheet (toString m))

/-- Expenses.construct_ranges (Expenses.py): validate the month bounds first
(ValueError before anything else), then select the sheets of the window,
partition them by the Spending and Trip substrings, and append the fixed cell
range of each group to each matching sheet name. The Python locals
in_range_sheets, spending_sheets and trip_sheets are inlined into the record
fields; the Python defaults are start month 1 and end month 12, passed
explicitly by the callers here. -/
def construct_ranges (sheets : List String) (start_month end_month : Nat) :
    Except String Ranges :=
  if ¬ (1 ≤ start_month ∧ start_month ≤ 12) then
    Except.error "ValueError: start_month must be between 1 and 12"
  else if ¬ (1 ≤ end_month ∧ end_month ≤ 12) then
    Except.error "ValueError: end_month must be between 1 and 12"
  else if start_month > end_month then
    Except.error "ValueError: start_month cannot be greater than end_month"
  else
    Except.ok
      { spending_ranges :=
          ((sheets.filter (month_in_range start_month end_month)).filter
            (fun s => strContains s "Spending")).map (fun s => s ++ "!" ++ SPENDING_RANGE_KEY)
        totals_ranges :=
          ((sheets.filter (month_in_range start_month end_month)).filter
            (fun s => strContains s "Spending")).map (fun s => s ++ "!" ++ TOTALS_RANGE_KEY)
        trip_spending_ranges :=
          ((sheets.filter (month_in_range start_month end_month)).filter
            (fun s => strContains s "Trip")).map (fun s => s ++ "!" ++ TRIP_SPENDING_RANGE_KEY)
        trip_totals_ranges :=
          ((sheets.filter (month_in_range start_month end_month)).filter
            (fun s => strContains s "Trip")).map (fun s => s ++ "!" ++ TRIP_TOTALS_RANGE_KEY) }

/-- The count dictionary returned by sync_google_sheets_data. -/
structure SyncResult where
  trips : Nat
  regular_purchases : Nat
  trip_purchases : Nat
  totals : Nat
  trip_totals : Nat
  total_purchases : Nat
deriving DecidableEq

/-- The five collections computed by one sync invocation together with the
count dictionary; these collections are exactly the batches handed to
save_data, in the order purchases, trip purchases, trips, totals, trip
totals. -/
structure SyncOutput where
  purchases : List PurchaseRow
  trip_purchases : List PurchaseRow
  trips : List TripRow
  totals : List TotalRow
  trip_totals : List TotalRow
  result : SyncResult
deriving DecidableEq

/-- The range resolution step of sync_google_sheets_data: a given month syncs
just that month, no month syncs the whole year through the Python defaults. -/
def resolve_ranges (e : Expenses) (month : Option Nat) : Except String Ranges :=
  match month with
  | some m => construct_ranges e.sheets m m
  | none => construct_ranges e.sheets 1 12

/-- The computation phase of sync_google_sheets_data (data_sync.py), in source
order: resolve ranges, process spending, filter the concrete-date purchases,
process totals, infer trips, process trip spending, process trip totals. -/
def compute_sync (e : Expenses) (month : Option Nat) : Except String SyncOutput :=
  match resolve_ranges e month with
  | Except.error msg => Except.error msg
  | Except.ok ranges =>
    match process_spending_data e ranges.spending_ranges with
    | Except.error msg => Except.error msg
    | Except.ok spending_rows =>
      let purchases := spending_rows.filter (fun r => r.date.isConcrete)
      match process_totals_data e ranges.totals_ranges with
      | Except.error msg => Except.error msg
      | Except.ok totals =>
        match process_trip_data spending_rows with
        | Except.error msg => Except.error msg
        | Except.ok trips =>
          match process_trip_spending_data e ranges.trip_spending_ranges trips with
          | Except.error msg => Except.error msg
          | Except.ok trip_purchases =>
            match process_trip_totals_data e ranges.trip_totals_ranges trips with
            | Except.error msg => Except.error msg
            | Except.ok trip_totals =>
              Except.ok
                { purchases := purchases
                  trip_purchases := trip_purchases
                  trips := trips
                  totals := totals
                  trip_totals := trip_totals
                  result := { trips := trips.length
                              regular_purchases := purchases.length
                              trip_purchases := trip_purchases.length
                              totals := totals.length
                              trip_totals := trip_totals.length
                              total_purchases := purchases.length + trip_purchases.length } }

/-- The persisted tables: purchases and trip purchases share the purchases
table, totals and trip totals share the totals table, as in models.py. -/
structure Store where
  purchases : List PurchaseRow
  trips : List TripRow
  totals : List TotalRow
deriving DecidableEq

/-- The store before any sync. -/
def emptyStore : Store := { purchases := [], trips := [], totals := [] }

/-- save_data (database.py): add_all plus commit inserts the batch row by row
inside one transaction; the primary-key uniqueness constraint on id rejects a
duplicate, the transaction rolls back (the table is left unchanged because the
error is propagated and the half-built table discarded), and the IntegrityError
is re-raised. -/
def insert_rows {α : Type} (key : α → String) :
    List α → List α → Except String (List α)
  | tab, [] => Except.ok tab
  | tab, r :: rs =>
    if tab.any (fun x => key x == key r) then Except.error "IntegrityError"
    else insert_rows key (tab ++ [r]) rs

/-- sync_google_sheets_data (data_sync.py): compute all collections, then the
five save_data calls in source order. Each successful save_data commit is
durable, so a failure leaves the previously committed batches in the store and
re-raises; the count dictionary is returned only when every save succeeded. -/
def sync_google_sheets_data (st : Store) (e : Expenses) (month : Option Nat) :
    Store × Except String SyncResult :=
  match compute_sync e month with
  | Except.error msg => (st, Except.error msg)
  | Except.ok o =>
    match insert_rows PurchaseRow.id st.purchases o.purchases with
    | Except.error msg => (st, Except.error msg)
    | Except.ok p1 =>
      match insert_rows PurchaseRow.id p1 o.trip_purchases with
      | Except.error msg => ({ st with purchases := p1 }, Except.error msg)
      | Except.ok p2 =>
        match insert_rows TripRow.id st.trips o.trips with
        | Except.error msg => ({ st with purchases := p2 }, Except.error msg)
        | Except.ok t1 =>
          match insert_rows TotalRow.id st.totals o.totals with
          | Except.error msg =>
            ({ st with purchases := p2, trips := t1 }, Except.error msg)
          | Except.ok u1 =>
            match insert_rows TotalRow.id u1 o.trip_totals with
            | Except.error msg =>
              ({ purchases := p2, trips := t1, totals := u1 }, Except.error msg)
            | Except.ok u2 =>
              ({ purchases := p2, trips := t1, totals := u2 }, Except.ok o.result)

/-- The fetch of the end-to-end scenario of the spec: sheet Spending 1/24 with
three data rows, one of which carries a date-range value, and sheet Trip
Spending 1/24 with two data rows. The tables of both sheets carry a header
row; the totals block of the trip sheet holds only its header. -/
def scenarioFetch : String → List (List String)
  | "Spending 1/24!A1:E" =>
    [["Date", "Amount", "Category", "Description", "Comment"],
     ["1/2/24", "$10.00", "Food", "Lunch"],
     ["1/5/24-1/8/24", "$200.00", "Travel", "Aspen Trip", "fun"],
     ["1/9/24", "$20.00", "Gas", "Car"]]
  | "Trip Spending 1/24!A1:E" =>
    [["Date", "Amount", "Category", "Description", "Comment"],
     ["1/6/24", "$50.00", "Food", "Dinner"],
     ["1/7/24", "$30.00", "Food", "Breakfast"]]
  | "Spending 1/24!F2:I9" =>
    [["Type", "Amount", "Progress", "Budget"],
     ["Groceries", "$100.00", "50%", "$200.00"]]
  | "Trip Spending 1/24!F2:I9" =>
    [["Type", "Amount", "Progress", "Budget"]]
  | _ => []

/-- The spreadsheet source of the end-to-end scenario. -/
def scenarioEnv : Expenses :=
  { sheets := ["Spending 1/24", "Trip Spending 1/24"], fetch := scenarioFetch }

/-- Propositional failure test for the exception monad. -/
def isFailure {α : Type} : Except String α → Bool
  | Except.error _ => true
  | Except.ok _ => false

/-- A source whose every fetch yields no rows, so get_data returns the absence
signal for every range. -/
def noDataEnv : Expenses :=
  { sheets := ["Spending 1/24", "Trip Spending 1/24"], fetch := fun _ => [] }

/-- A trip whose name matches the first token of the sheet Trip Spending 1/24,
so that process_trip_totals_data reaches its get_data call on that sheet. -/
def c2Trip : TripRow :=
  { id := "tid", name := "Trip", start_date := ⟨2024, 1, 5⟩, end_date := ⟨2024, 1, 8⟩,
    comment := none }

/-- A one-sheet, one-purchase source for exercising a full successful sync. -/
def wEnv : Expenses :=
  { sheets := ["Spending 1/24"]
    fetch := fun r =>
      if r = "Spending 1/24!A1:E" then
        [["Date", "Amount", "Category", "Description", "Comment"],
         ["1/2/24", "$5", "Food", "Lunch"]]
      else if r = "Spending 1/24!F2:I9" then
        [["Type", "Amount", "Progress", "Budget"]]
      else [] }

/-- The single purchase row the wEnv sync persists. -/
def wRow : PurchaseRow :=
  { id := "Spending 1/24_0", date := DateField.d ⟨2024, 1, 2⟩, amount := 5,
    category := "Food", description := "Lunch", comment := none, trip_id := none }

/-- The store after the first wEnv sync. -/
def wStore1 : Store := { purchases := [wRow], trips := [], totals := [] }

/-- A source with one regular-spending sheet (holding one concrete-date row
and one date-range row) and one trip sheet whose name avoids the Spending
substring, so the two streams stay disjoint. -/
def c5Env : Expenses :=
  { sheets := ["Spending 1/24", "Hawaii Trip 1/24"]
    fetch := fun r =>
      if r = "Spending 1/24!A1:E" then
        [["Date", "Amount", "Category", "Description", "Comment"],
         ["1/2/24", "$5", "Food", "Lunch"],
         ["1/5/24-1/8/24", "$7", "Travel", "Aspen Trip"]]
      else if r = "Spending 1/24!F2:I9" then
        [["Type", "Amount", "Progress", "Budget"]]
      else if r = "Hawaii Trip 1/24!A1:E" then
        [["Date", "Amount", "Category", "Description", "Comment"],
         ["1/6/24", "$3", "Food", "Poke"]]
      else if r = "Hawaii Trip 1/24!F2:G8" then
        [["Type", "Amount"]]
      else [] }

/-- The regular purchase computed from c5Env. -/
def c5Reg : PurchaseRow :=
  { id := "Spending 1/24_0", date := DateField.d ⟨2024, 1, 2⟩, amount := 5,
    category := "Food", description := "Lunch", comment := none, trip_id := none }

/-- The trip purchase computed from c5Env; the first token of its sheet name, Hawaii,
misses the inferred trips, so the trip reference stays null. -/
def c5TripP : PurchaseRow :=
  { id := "Hawaii Trip 1/24_0", date := DateField.d ⟨2024, 1, 6⟩, amount := 3,
    category := "Food", description := "Poke", comment := none, trip_id := none }

/-- The trip inferred from the date-range row of c5Env. -/
def c5Trip : TripRow :=
  { id := "Aspen_2024-01-05_2024-01-08", name := "Aspen",
    start_date := ⟨2024, 1, 5⟩, end_date := ⟨2024, 1, 8⟩, comment := none }

/-- The full computed output of the c5Env sync. -/
def c5Out : SyncOutput :=
  { purchases := [c5Reg], trip_purchases := [c5TripP], trips := [c5Trip],
    totals := [], trip_totals := [],
    result := { trips := 1, regular_purchases := 1, trip_purchases := 1,
                totals := 0, trip_totals := 0, total_purchases := 2 } }

/-- A previously inferred trip for the linking witness. -/
def c6Trip : TripRow :=
  { id := "Hawaii_2024-06-01_2024-06-05", name := "Hawaii",
    start_date := ⟨2024, 6, 1⟩, end_date := ⟨2024, 6, 5⟩, comment := some "fun" }

/-- The purchase row built from a trip-spending row dated outside every window
of its candidate trips: produced, with a null trip reference. -/
def c6Row : PurchaseRow :=
  { id := "Hawaii Trip Spending_0", date := DateField.d ⟨2024, 7, 1⟩, amount := 10,
    category := "Food", description := "Poke", comment := none, trip_id := none }

/-- The trip owning the trip-totals sheet of the c10 witness. -/
def c10Trip : TripRow :=
  { id := "HawaiiTripId", name := "Hawaii",
    start_date := ⟨2024, 6, 1⟩, end_date := ⟨2024, 6, 5⟩, comment := none }

/-- A source holding one trip-totals block with one data row. -/
def c10Env : Expenses :=
  { sheets := ["Hawaii Trip Spending 6/24"]
    fetch := fun r =>
      if r = "Hawaii Trip Spending 6/24!F2:G8" then
        [["Type", "Amount"], ["Flights", "$400.00"]]
      else [] }

/-- The trip-totals row computed from c10Env. -/
def c10Row : TotalRow :=
  { id := "Hawaii Trip Spending 6/24_Flights_Hawaii", date := ⟨2024, 6, 1⟩,
    type := "Flights", amount := 400, progress := 0, budgeted := 0,
    trip := some "HawaiiTripId" }

/-- The range groups resolved for the single sheet Trip Spending 1/24 and
month window 1 to 1. -/
def c9Ranges : Ranges :=
  { spending_ranges := ["Trip Spending 1/24!A1:E"]
    totals_ranges := ["Trip Spending 1/24!F2:I9"]
    trip_spending_ranges := ["Trip Spending 1/24!A1:E"]
    trip_totals_ranges := ["Trip Spending 1/24!F2:G8"] }

/-! Helper lemmas shared by the claim theorems. -/

/-- Every element of a successful mapME output is the image of a successful
application of the body. -/
theorem mapME_ok_mem {α β : Type} {f : α → Except String β} :
    ∀ {l : List α} {out : List β}, mapME f l = Except.ok out →
      ∀ b ∈ out, ∃ a, f a = Except.ok b := by
  intro l
  induction l with
  | nil =>
    intro out h b hb
    simp only [mapME] at h
    cases h
    cases hb
  | cons a l ih =>
    intro out h b hb
    simp only [mapME] at h
    cases hfa : f a with
    | error msg => rw [hfa] at h; cases h
    | ok b0 =>
      rw [hfa] at h
      cases hrec : mapME f l with
      | error msg => rw [hrec] at h; cases h
      | ok bs =>
        rw [hrec] at h
        cases h
        rcases List.mem_cons.mp hb with hb0 | hbs
        · exact ⟨a, hb0 ▸ hfa⟩
        · exact ih hrec b hbs

/-- Every element of a successful concatME output comes from a successful
application of the per-range body. -/
theorem concatME_ok_mem {α : Type} {f : String → Except String (List α)} :
    ∀ {rs : List String} {out : List α}, concatME f rs = Except.ok out →
      ∀ b ∈ out, ∃ r xs, f r = Except.ok xs ∧ b ∈ xs := by
  intro rs
  induction rs with
  | nil =>
    intro out h b hb
    simp only [concatME] at h
    cases h
    cases hb
  | cons r rest ih =>
    intro out h b hb
    simp only [concatME] at h
    cases hfr : f r with
    | error msg => rw [hfr] at h; cases h
    | ok xs =>
      rw [hfr] at h
      cases hrec : concatME f rest with
      | error msg => rw [hrec] at h; cases h
      | ok ys =>
        rw [hrec] at h
        cases h
        rcases List.mem_append.mp hb with hx | hy
        · exact ⟨r, xs, hfr, hx⟩
        · exact ih hrec b hy

/-- A successful insert appends the batch to the table. -/
theorem insert_rows_ok_append {α : Type} (key : α → String) :
    ∀ (rows tab t' : List α), insert_rows key tab rows = Except.ok t' →
      t' = tab ++ rows := by
  intro rows
  induction rows with
  | nil =>
    intro tab t' h
    simp only [insert_rows] at h
    cases h
    simp
  | cons r rs ih =>
    intro tab t' h
    simp only [insert_rows] at h
    by_cases hc : tab.any (fun x => key x == key r)
    · rw [if_pos hc] at h; cases h
    · rw [if_neg hc] at h
      have := ih (tab ++ [r]) t' h
      simp [this]

/-- Inserting a batch whose members are all already present either leaves the
table unchanged (empty batch) or is rejected with the integrity error. -/
theorem insert_rows_present {α : Type} (key : α → String) (tab rows : List α)
    (hsub : ∀ r ∈ rows, r ∈ tab) :
    insert_rows key tab rows = Except.ok tab ∨
      insert_rows key tab rows = Except.error "IntegrityError" := by
  cases rows with
  | nil => left; rfl
  | cons r rs =>
    right
    have hr : r ∈ tab := hsub r (List.mem_cons_self r rs)
    have hany : tab.any (fun x => key x == key r) = true :=
      List.any_eq_true.mpr ⟨r, hr, beq_self_eq_true (key r)⟩
    simp only [insert_rows, hany]
    simp

/-- A successfully built trip-totals row carries the DEFAULT_NA sentinel in
both progress and budgeted. -/
theorem trip_totals_row_na (sheet_name trip_name : String) (trip : TripRow)
    (d : List String) (y : TotalRow)
    (h : trip_totals_row sheet_name trip_name trip d = Except.ok y) :
    y.progress = DEFAULT_NA ∧ y.budgeted = DEFAULT_NA := by
  simp only [trip_totals_row] at h
  cases h0 : item d 0 with
  | error msg => simp only [h0] at h; cases h
  | ok t0 =>
    simp only [h0] at h
    cases h1 : item d 1 with
    | error msg => simp only [h1] at h; cases h
    | ok a1 =>
      simp only [h1] at h
      cases h2 : parse_amount a1 with
      | none => simp only [h2] at h; cases h
      | some amt =>
        simp only [h2] at h
        cases h
        exact ⟨rfl, rfl⟩

/-- Lifting of trip_totals_row_na over one trip-totals range. -/
theorem process_trip_totals_range_na (e : Expenses) (trips : List TripRow)
    (r : String) (xs : List TotalRow)
    (h : process_trip_totals_range e trips r = Except.ok xs) :
    ∀ y ∈ xs, y.progress = DEFAULT_NA ∧ y.budgeted = DEFAULT_NA := by
  simp only [process_trip_totals_range] at h
  cases hl : lookupLastByName trips (firstToken (get_sheet_name_from_range r)) with
  | none =>
    simp only [hl] at h
    cases h
    intro y hy
    cases hy
  | some trip =>
    simp only [hl] at h
    cases hg : Expenses.get_data e r with
    | none => simp only [hg] at h; cases h
    | some p =>
      simp only [hg] at h
      obtain ⟨sn, values⟩ := p
      intro y hy
      obtain ⟨d, hd⟩ := mapME_ok_mem h y hy
      exact trip_totals_row_na _ _ _ _ _ hd

/-- A successfully built trip purchase row carries a concrete parsed date, and
its trip reference is exactly the result of the lookup-and-scan of the source:
None on a lookup miss, otherwise the first candidate whose window contains the
date. -/
theorem trip_purchase_row_spec (sh : String) (lk : List (String × List TripRow))
    (ri : Nat) (p : List String) (row : PurchaseRow)
    (h : trip_purchase_row sh lk ri p = Except.ok row) :
    ∃ pd, row.date = DateField.d pd ∧
      row.trip_id = (match lookupGet lk (firstToken sh) with
                     | none => none
                     | some ts => firstContaining pd ts) := by
  simp only [trip_purchase_row] at h
  cases h0 : item p 0 with
  | error msg => simp only [h0] at h; cases h
  | ok c0 =>
    simp only [h0] at h
    cases hpd : parse_date c0 with
    | none => simp only [hpd] at h; cases h
    | some pd =>
      simp only [hpd] at h
      cases h1 : item p 1 with
      | error msg => simp only [h1] at h; cases h
      | ok a1 =>
        simp only [h1] at h
        cases h2 : parse_amount a1 with
        | none => simp only [h2] at h; cases h
        | some amt =>
          simp only [h2] at h
          cases h3 : item p 2 with
          | error msg => simp only [h3] at h; cases h
          | ok cat =>
            simp only [h3] at h
            cases h4 : item p 3 with
            | error msg => simp only [h4] at h; cases h
            | ok desc =>
              simp only [h4] at h
              cases h
              exact ⟨pd, rfl, rfl⟩

/-- Every row of one successfully processed trip-spending range carries a
concrete date. -/
theorem process_trip_spending_range_concrete (e : Expenses)
    (lk : List (String × List TripRow)) (r : String) (xs : List PurchaseRow)
    (h : process_trip_spending_range e lk r = Except.ok xs) :
    ∀ row ∈ xs, row.date.isConcrete = true := by
  simp only [process_trip_spending_range] at h
  cases hg : Expenses.get_data e r with
  | none => simp only [hg] at h; cases h
  | some p =>
    simp only [hg] at h
    obtain ⟨sn, values⟩ := p
    intro row hrow
    obtain ⟨a, ha⟩ := mapME_ok_mem h row hrow
    obtain ⟨pd, hd, _⟩ := trip_purchase_row_spec sn lk a.1 a.2 row ha
    rw [hd]
    rfl

/-- One dict update of the trip lookup: the updated name gains the trip at the
end of its candidate list, every other name is untouched. -/
theorem lookupGet_lookupAdd (acc : List (String × List TripRow)) (t : TripRow)
    (name : String) :
    lookupGet (lookupAdd acc t) name =
      if t.name = name then some (((lookupGet acc name).getD []) ++ [t])
      else lookupGet acc name := by
  induction acc with
  | nil =>
    by_cases ht : t.name = name <;> simp [lookupAdd, lookupGet, ht]
  | cons hd tl ih =>
    obtain ⟨n, ts⟩ := hd
    simp only [lookupAdd]
    by_cases hn : n = t.name
    · subst hn
      by_cases hname : t.name = name <;> simp [lookupGet, hname]
    · rw [if_neg hn]
      by_cases hname : n = name
      · subst hname
        have htn : ¬ (t.name = n) := fun hh => hn hh.symm
        simp [lookupGet, htn]
      · simp [lookupGet, hname, ih]

/-- The built trip lookup groups the processed trips by name, preserving their
relative order within each name. -/
theorem lookupGet_foldl (trips : List TripRow) :
    ∀ (acc : List (String × List TripRow)) (name : String),
      (lookupGet (List.foldl lookupAdd acc trips) name).getD [] =
        (lookupGet acc name).getD [] ++ trips.filter (fun t => t.name == name) := by
  induction trips with
  | nil => intro acc name; simp
  | cons t ts ih =>
    intro acc name
    simp only [List.foldl_cons, List.filter_cons]
    rw [ih (lookupAdd acc t) name, lookupGet_lookupAdd]
    by_cases ht : t.name = name
    · have hb : (t.name == name) = true := beq_iff_eq.mpr ht
      simp [ht, hb]
    · have hb : (t.name == name) = false := beq_eq_false_iff_ne.mpr ht
      simp [ht, hb]

/-- Scanning the same-name candidates for the first window containing the date
is the same as taking the first trip of the processed list that has the name
and contains the date. -/
theorem firstContaining_filter (pd : Date) (name : String) :
    ∀ (l : List TripRow),
      firstContaining pd (l.filter (fun t => t.name == name)) =
        (l.find? (fun t =>
          t.name == name && (dateLE t.start_date pd && dateLE pd t.end_date))).map
          TripRow.id := by
  intro l
  induction l with
  | nil => rfl
  | cons t ts ih =>
    simp only [List.filter_cons, List.find?]
    cases hn : (t.name == name) with
    | false =>
      have hc : (t.name == name && (dateLE t.start_date pd && dateLE pd t.end_date)) = false := by
        simp [hn]
      simpa [hn, hc] using ih
    | true =>
      cases hw : (dateLE t.start_date pd && dateLE pd t.end_date) with
      | true =>
        have hc : (t.name == name && (dateLE t.start_date pd && dateLE pd t.end_date)) = true := by
          simp [hn, hw]
        simp [hn, hc, firstContaining, hw]
      | false =>
        have hc : (t.name == name && (dateLE t.start_date pd && dateLE pd t.end_date)) = false := by
          simp [hn, hw]
        simp [hn, hc, firstContaining, hw, ih]

/-! Claim theorems. -/

/-- C1 counterexample: on the end-to-end layout of the spec (sheet Spending
1/24 with 3 data rows, one a date range, and sheet Trip Spending 1/24 with 2
data rows), sync for month 1 does not return the claimed counts: it raises an
integrity error during persistence, and even the computed counts give 4
regular purchases and 6 total purchases rather than 2 and 4, because the
name of the trip sheet contains the substring Spending and its rows are processed a
second time as regular spending. -/
theorem c1_counterexample :
    (sync_google_sheets_data emptyStore scenarioEnv (some 1)).2 =
      Except.error "IntegrityError" ∧
    (compute_sync scenarioEnv (some 1)).map (fun o => o.result.regular_purchases) ≠
      Except.ok 2 ∧
    (compute_sync scenarioEnv (some 1)).map (fun o => o.result.total_purchases) ≠
      Except.ok 4 := by
  exact ⟨by decide, by decide, by decide⟩

/-- C1 amended: on that layout the computation phase yields trips 1, regular
purchases 4, trip purchases 2, totals 1 (the data rows of the totals ranges),
trip totals 0 and total purchases 6; persisting then fails with the integrity
error because the two rows of the trip sheet carry the same derived ids in both
purchase batches, leaving only the first batch committed. -/
theorem c1_amended_behavior :
    (compute_sync scenarioEnv (some 1)).map SyncOutput.result =
      Except.ok { trips := 1, regular_purchases := 4, trip_purchases := 2,
                  totals := 1, trip_totals := 0, total_purchases := 6 } ∧
    (sync_google_sheets_data emptyStore scenarioEnv (some 1)).2 =
      Except.error "IntegrityError" ∧
    (sync_google_sheets_data emptyStore scenarioEnv (some 1)).1.purchases.length = 4 := by
  exact ⟨by decide, by decide, by decide⟩

/-- C2: the extraction does signal absence (get_data returns None for an empty
fetch), but every downstream processing step then crashes on that None with an
AttributeError instead of treating the range as zero rows, so the claimed
graceful handling is a bug in the code: the consumers never check for the
documented absence value. -/
theorem c2_empty_range_crash :
    Expenses.get_data noDataEnv "Spending 1/24!A1:E" = none ∧
    process_spending_data noDataEnv ["Spending 1/24!A1:E"] = Except.error ATTR_ERROR ∧
    process_totals_data noDataEnv ["Spending 1/24!F2:I9"] = Except.error ATTR_ERROR ∧
    process_trip_spending_data noDataEnv ["Trip Spending 1/24!A1:E"] [] =
      Except.error ATTR_ERROR ∧
    process_trip_totals_data noDataEnv ["Trip Spending 1/24!F2:G8"] [c2Trip] =
      Except.error ATTR_ERROR := by
  exact ⟨by decide, by decide, by decide, by decide, by decide⟩

/-- C3: the id generators are pure functions of their natural keys (md5 of the
combined key string), so a re-sync over unchanged source data derives exactly
the ids already persisted; every batch of the second sync is therefore either
empty or rejected by the id uniqueness constraint with its transaction rolled
back, and in all cases the second sync leaves every persisted collection — and
hence every set of entity ids — exactly as the first sync left it, creating no
duplicate rows. -/
theorem c3_resync_no_duplicates (e : Expenses) (m : Option Nat) (st st₁ st₂ : Store)
    (r₁ : SyncResult) (res₂ : Except String SyncResult)
    (h₁ : sync_google_sheets_data st e m = (st₁, Except.ok r₁))
    (h₂ : sync_google_sheets_data st₁ e m = (st₂, res₂)) :
    st₂ = st₁ := by
  simp only [sync_google_sheets_data] at h₁ h₂
  cases hc : compute_sync e m with
  | error msg => simp only [hc] at h₁; simp at h₁
  | ok o =>
    simp only [hc] at h₁ h₂
    cases hp1 : insert_rows PurchaseRow.id st.purchases o.purchases with
    | error msg => simp only [hp1] at h₁; simp at h₁
    | ok p1 =>
      simp only [hp1] at h₁
      cases hp2 : insert_rows PurchaseRow.id p1 o.trip_purchases with
      | error msg => simp only [hp2] at h₁; simp at h₁
      | ok p2 =>
        simp only [hp2] at h₁
        cases ht1 : insert_rows TripRow.id st.trips o.trips with
        | error msg => simp only [ht1] at h₁; simp at h₁
        | ok t1 =>
          simp only [ht1] at h₁
          cases hu1 : insert_rows TotalRow.id st.totals o.totals with
          | error msg => simp only [hu1] at h₁; simp at h₁
          | ok u1 =>
            simp only [hu1] at h₁
            cases hu2 : insert_rows TotalRow.id u1 o.trip_totals with
            | error msg => simp only [hu2] at h₁; simp at h₁
            | ok u2 =>
              simp only [hu2] at h₁
              injection h₁ with h₁a h₁b
              have e1 := insert_rows_ok_append PurchaseRow.id o.purchases st.purchases p1 hp1
              have e2 := insert_rows_ok_append PurchaseRow.id o.trip_purchases p1 p2 hp2
              have e3 := insert_rows_ok_append TripRow.id o.trips st.trips t1 ht1
              have e4 := insert_rows_ok_append TotalRow.id o.totals st.totals u1 hu1
              have e5 := insert_rows_ok_append TotalRow.id o.trip_totals u1 u2 hu2
              have hpur : st₁.purchases = st.purchases ++ o.purchases ++ o.trip_purchases := by
                rw [← h₁a]
                show p2 = _
                rw [e2, e1]
              have htrp : st₁.trips = st.trips ++ o.trips := by
                rw [← h₁a]
                show t1 = _
                exact e3
              have htot : st₁.totals = st.totals ++ o.totals ++ o.trip_totals := by
                rw [← h₁a]
                show u2 = _
                rw [e5, e4]
              have hPsub : ∀ r ∈ o.purchases, r ∈ st₁.purchases := by
                intro r hr; rw [hpur]; simp [hr]
              have hTPsub : ∀ r ∈ o.trip_purchases, r ∈ st₁.purchases := by
                intro r hr; rw [hpur]; simp [hr]
              have hTsub : ∀ r ∈ o.trips, r ∈ st₁.trips := by
                intro r hr; rw [htrp]; simp [hr]
              have hTOsub : ∀ r ∈ o.totals, r ∈ st₁.totals := by
                intro r hr; rw [htot]; simp [hr]
              have hTTsub : ∀ r ∈ o.trip_totals, r ∈ st₁.totals := by
                intro r hr; rw [htot]; simp [hr]
              rcases insert_rows_present PurchaseRow.id st₁.purchases o.purchases hPsub with hA | hA
              · simp only [hA] at h₂
                rcases insert_rows_present PurchaseRow.id st₁.purchases o.trip_purchases hTPsub with hB | hB
                · simp only [hB] at h₂
                  rcases insert_rows_present TripRow.id st₁.trips o.trips hTsub with hC | hC
                  · simp only [hC] at h₂
                    rcases insert_rows_present TotalRow.id st₁.totals o.totals hTOsub with hD | hD
                    · simp only [hD] at h₂
                      rcases insert_rows_present TotalRow.id st₁.totals o.trip_totals hTTsub with hE | hE
                      · simp only [hE] at h₂
                        injection h₂ with h₂a h₂b
                        exact h₂a.symm
                      · simp only [hE] at h₂
                        injection h₂ with h₂a h₂b
                        exact h₂a.symm
                    · simp only [hD] at h₂
                      injection h₂ with h₂a h₂b
                      exact h₂a.symm
                  · simp only [hC] at h₂
                    injection h₂ with h₂a h₂b
                    exact h₂a.symm
                · simp only [hB] at h₂
                  injection h₂ with h₂a h₂b
                  exact h₂a.symm
              · simp only [hA] at h₂
                injection h₂ with h₂a h₂b
                exact h₂a.symm

/-- C3 witness: a concrete one-purchase source whose first sync succeeds and
whose immediate re-sync leaves the store unchanged. -/
theorem c3_witness :
    (sync_google_sheets_data wStore1 wEnv (some 1)).1 = wStore1 :=
  c3_resync_no_duplicates wEnv (some 1) emptyStore wStore1
    (sync_google_sheets_data wStore1 wEnv (some 1)).1
    { trips := 0, regular_purchases := 1, trip_purchases := 0, totals := 0,
      trip_totals := 0, total_purchases := 1 }
    (sync_google_sheets_data wStore1 wEnv (some 1)).2
    (by decide) rfl

/-- C5: every purchase record the computation phase hands to persistence — the
regular stream, filtered to date instances, and the trip stream, whose dates
always pass through parse_date — carries a concrete calendar date; no
persisted purchase carries a raw date-range string. -/
theorem c5_purchases_concrete (e : Expenses) (m : Option Nat) (o : SyncOutput)
    (h : compute_sync e m = Except.ok o) :
    (∀ r ∈ o.purchases, r.date.isConcrete = true) ∧
    (∀ r ∈ o.trip_purchases, r.date.isConcrete = true) := by
  simp only [compute_sync] at h
  cases hr : resolve_ranges e m with
  | error msg => simp only [hr] at h; cases h
  | ok ranges =>
    simp only [hr] at h
    cases hsp : process_spending_data e ranges.spending_ranges with
    | error msg => simp only [hsp] at h; cases h
    | ok spending_rows =>
      simp only [hsp] at h
      cases hto : process_totals_data e ranges.totals_ranges with
      | error msg => simp only [hto] at h; cases h
      | ok totals =>
        simp only [hto] at h
        cases htr : process_trip_data spending_rows with
        | error msg => simp only [htr] at h; cases h
        | ok trips =>
          simp only [htr] at h
          cases htp : process_trip_spending_data e ranges.trip_spending_ranges trips with
          | error msg => simp only [htp] at h; cases h
          | ok trip_purchases =>
            simp only [htp] at h
            cases htt : process_trip_totals_data e ranges.trip_totals_ranges trips with
            | error msg => simp only [htt] at h; cases h
            | ok trip_totals =>
              simp only [htt] at h
              cases h
              constructor
              · intro r hrmem
                exact (List.mem_filter.mp hrmem).2
              · intro r hrmem
                simp only [process_trip_spending_data] at htp
                obtain ⟨rg, xs, hrg, hx⟩ := concatME_ok_mem htp r hrmem
                exact process_trip_spending_range_concrete e _ rg xs hrg r hx

/-- C5 witness: the c5Env sync computes one regular and one trip purchase,
both with concrete dates. -/
theorem c5_witness :
    c5Reg.date.isConcrete = true ∧ c5TripP.date.isConcrete = true := by
  have h := c5_purchases_concrete c5Env (some 1) c5Out (by decide)
  exact ⟨h.1 c5Reg (by decide), h.2 c5TripP (by decide)⟩

/-- C6: a successfully produced trip-spending purchase row is linked to the
first previously inferred trip whose name equals the first token of the sheet
name and whose window contains the parsed date of the row, and carries a null trip
reference (while still being produced) when no trip matches. -/
theorem c6_trip_purchase_linking (sheet_name : String) (trips : List TripRow)
    (ri : Nat) (p : List String) (row : PurchaseRow) (pd : Date)
    (h : trip_purchase_row sheet_name (build_trip_lookup trips) ri p = Except.ok row)
    (hd : row.date = DateField.d pd) :
    row.trip_id = (trips.find? (fun t =>
      t.name == firstToken sheet_name &&
        (dateLE t.start_date pd && dateLE pd t.end_date))).map TripRow.id := by
  obtain ⟨pd0, hd0, htid⟩ :=
    trip_purchase_row_spec sheet_name (build_trip_lookup trips) ri p row h
  rw [hd] at hd0
  injection hd0 with hpd0
  subst hpd0
  rw [htid]
  have hmatch : (match lookupGet (build_trip_lookup trips) (firstToken sheet_name) with
      | none => none
      | some ts => firstContaining pd ts)
      = firstContaining pd
          ((lookupGet (build_trip_lookup trips) (firstToken sheet_name)).getD []) := by
    cases hlk : lookupGet (build_trip_lookup trips) (firstToken sheet_name) <;>
      simp [firstContaining]
  rw [hmatch, build_trip_lookup, lookupGet_foldl trips [] (firstToken sheet_name)]
  simp only [lookupGet, Option.getD_none, List.nil_append]
  exact firstContaining_filter pd (firstToken sheet_name) trips

/-- C6 witness: a trip-spending row dated outside the window of the single
candidate trip is produced with a null trip reference. -/
theorem c6_witness :
    c6Row.trip_id = (([c6Trip]).find? (fun t =>
      t.name == firstToken "Hawaii Trip Spending" &&
        (dateLE t.start_date ⟨2024, 7, 1⟩ && dateLE ⟨2024, 7, 1⟩ t.end_date))).map
        TripRow.id :=
  c6_trip_purchase_linking "Hawaii Trip Spending" [c6Trip] 0
    ["7/1/24", "$10.00", "Food", "Poke"] c6Row ⟨2024, 7, 1⟩ (by decide) (by decide)

/-- C7: invalid month bounds (either month outside 1 to 12, or start greater
than end) make construct_ranges fail validation, and the failure is computed
before any work on the sheets: the result does not depend on the sheet list,
and construct_ranges takes no fetch environment at all, so no network or row
parsing can have happened. -/
theorem c7_month_validation (sheets : List String) (s e : Nat)
    (h : ¬ (1 ≤ s ∧ s ≤ 12) ∨ ¬ (1 ≤ e ∧ e ≤ 12) ∨ s > e) :
    isFailure (construct_ranges sheets s e) = true ∧
    ∀ sheets₂, construct_ranges sheets₂ s e = construct_ranges sheets s e := by
  by_cases h₁ : (1 ≤ s ∧ s ≤ 12)
  · by_cases h₂ : (1 ≤ e ∧ e ≤ 12)
    · have h₃ : s > e := by tauto
      exact ⟨by simp [construct_ranges, h₁, h₂, h₃, isFailure],
             fun sheets₂ => by simp [construct_ranges, h₁, h₂, h₃]⟩
    · exact ⟨by simp [construct_ranges, h₁, h₂, isFailure],
             fun sheets₂ => by simp [construct_ranges, h₁, h₂]⟩
  · exact ⟨by simp [construct_ranges, h₁, isFailure],
           fun sheets₂ => by simp [construct_ranges, h₁]⟩

/-- C7 witness: month 0 fails validation identically for two different sheet
lists. -/
theorem c7_witness :
    isFailure (construct_ranges ["Spending 1/24"] 0 5) = true ∧
    construct_ranges [] 0 5 = construct_ranges ["Spending 1/24"] 0 5 := by
  have h := c7_month_validation ["Spending 1/24"] 0 5 (Or.inl (by decide))
  exact ⟨h.1, h.2 []⟩

/-- C8: parse_date parses 1/5/2024 and 1/5/24 to the same date 2024-01-05; it
tries the four-digit-year format first (any four-digit success is the result)
and only on its failure falls back to the two-digit-year format, whose own
failure — when neither format matches — is the result of parse_date. -/
theorem c8_parse_date_fallback :
    parse_date "1/5/2024" = some ⟨2024, 1, 5⟩ ∧
    parse_date "1/5/24" = some ⟨2024, 1, 5⟩ ∧
    (∀ s d, strptimeMDYYYY s = some d → parse_date s = some d) ∧
    (∀ s, strptimeMDYYYY s = none → parse_date s = strptimeMDYY s) := by
  refine ⟨by decide, by decide, ?_, ?_⟩
  · intro s d h
    simp [parse_date, h]
  · intro s h
    simp [parse_date, h]

/-- C8 witness: the fallback conjuncts applied at concrete inputs. -/
theorem c8_witness :
    parse_date "1/5/2024" = some ⟨2024, 1, 5⟩ ∧
    parse_date "1/5/24" = strptimeMDYY "1/5/24" :=
  ⟨c8_parse_date_fallback.2.2.1 "1/5/2024" ⟨2024, 1, 5⟩ (by decide),
   c8_parse_date_fallback.2.2.2 "1/5/24" (by decide)⟩

/-- C9: the two sheet groups of construct_ranges are not disjoint: a selected
sheet whose name contains both Spending and Trip lands in the spending and
totals group and in the trip-spending and trip-totals group, so sync feeds the
very same cells (A1:E carries both range keys) to the regular-spending
processing and to the trip-spending processing. -/
theorem c9_sheet_group_overlap (sheets : List String) (s e : Nat) (r : Ranges)
    (sheet : String)
    (hok : construct_ranges sheets s e = Except.ok r) (hmem : sheet ∈ sheets)
    (hm : month_in_range s e sheet = true)
    (hsp : strContains sheet "Spending" = true)
    (htr : strContains sheet "Trip" = true) :
    (sheet ++ "!" ++ SPENDING_RANGE_KEY) ∈ r.spending_ranges ∧
    (sheet ++ "!" ++ TOTALS_RANGE_KEY) ∈ r.totals_ranges ∧
    (sheet ++ "!" ++ TRIP_SPENDING_RANGE_KEY) ∈ r.trip_spending_ranges ∧
    (sheet ++ "!" ++ TRIP_TOTALS_RANGE_KEY) ∈ r.trip_totals_ranges := by
  simp only [construct_ranges] at hok
  by_cases h₁ : ¬ (1 ≤ s ∧ s ≤ 12)
  · rw [if_pos h₁] at hok; cases hok
  · rw [if_neg h₁] at hok
    by_cases h₂ : ¬ (1 ≤ e ∧ e ≤ 12)
    · rw [if_pos h₂] at hok; cases hok
    · rw [if_neg h₂] at hok
      by_cases h₃ : s > e
      · rw [if_pos h₃] at hok; cases hok
      · rw [if_neg h₃] at hok
        injection hok with hok
        subst hok
        refine ⟨?_, ?_, ?_, ?_⟩
        · exact List.mem_map_of_mem _
            (List.mem_filter.mpr ⟨List.mem_filter.mpr ⟨hmem, hm⟩, hsp⟩)
        · exact List.mem_map_of_mem _
            (List.mem_filter.mpr ⟨List.mem_filter.mpr ⟨hmem, hm⟩, hsp⟩)
        · exact List.mem_map_of_mem _
            (List.mem_filter.mpr ⟨List.mem_filter.mpr ⟨hmem, hm⟩, htr⟩)
        · exact List.mem_map_of_mem _
            (List.mem_filter.mpr ⟨List.mem_filter.mpr ⟨hmem, hm⟩, htr⟩)

/-- C9 witness: the sheet Trip Spending 1/24 is placed in all four range
groups for the January window. -/
theorem c9_witness :
    ("Trip Spending 1/24" ++ "!" ++ SPENDING_RANGE_KEY) ∈ c9Ranges.spending_ranges ∧
    ("Trip Spending 1/24" ++ "!" ++ TOTALS_RANGE_KEY) ∈ c9Ranges.totals_ranges ∧
    ("Trip Spending 1/24" ++ "!" ++ TRIP_SPENDING_RANGE_KEY) ∈
      c9Ranges.trip_spending_ranges ∧
    ("Trip Spending 1/24" ++ "!" ++ TRIP_TOTALS_RANGE_KEY) ∈
      c9Ranges.trip_totals_ranges :=
  c9_sheet_group_overlap ["Trip Spending 1/24"] 1 1 c9Ranges "Trip Spending 1/24"
    (by decide) (by decide) (by decide) (by decide) (by decide)

/-- C10: every total produced from a trip-totals range carries the DEFAULT_NA
sentinel in both progress and budgeted; the percentage cells are never parsed
on this path. -/
theorem c10_trip_totals_sentinel (e : Expenses) (rs : List String)
    (trips : List TripRow) (out : List TotalRow)
    (h : process_trip_totals_data e rs trips = Except.ok out) :
    ∀ y ∈ out, y.progress = DEFAULT_NA ∧ y.budgeted = DEFAULT_NA := by
  intro y hy
  simp only [process_trip_totals_data] at h
  obtain ⟨r, xs, hr, hx⟩ := concatME_ok_mem h y hy
  exact process_trip_totals_range_na e trips r xs hr y hx

/-- C10 witness: the single trip-totals row of the c10Env carries the sentinel
in both fields. -/
theorem c10_witness :
    c10Row.progress = DEFAULT_NA ∧ c10Row.budgeted = DEFAULT_NA :=
  c10_trip_totals_sentinel c10Env ["Hawaii Trip Spending 6/24!F2:G8"] [c10Trip]
    [c10Row] (by decide) c10Row (by decide)

end BudgetSync
